import Mathlib

/- Shallow embedding of the OAuth2 token lifecycle and order-listing code of
   burstman/total_shop_api (src/main.go, src/helper.go,
   src/service/dataService.go).

   Conventions of the embedding:
   - Go time.Time values become integers (Unix seconds); time.Now() is passed
     in as an explicit argument, and Go a.After(b) is the strict comparison
     a > b.
   - Every upstream HTTP exchange is passed in as an explicit value describing
     what the remote side answered (transport error, non-200 status, 200 with
     an undecodable body, or the decoded payload); the handler functions count
     how many upstream calls they perform.
   - The database table public.token_infos becomes an association list keyed
     by user id; database reads and writes are modelled as always succeeding.
   - GORM struct-based Updates and Assign skip fields holding the Go zero
     value ("" for strings, 0 for integers and, in this integer model, for
     times); gormMergeInfo models that merge.  Map-based Updates write the
     listed columns unconditionally. -/

deriving instance DecidableEq for Except

namespace Converty

/-- Token endpoint JSON response body (main.go, TokenResponse). -/
structure TokenResponse where
  accessToken : String
  refreshToken : String
  expiresIn : Int
  tokenType : String
deriving DecidableEq, Repr

/-- Database row of public.token_infos (main.go, TokenInfo), times as
integers. -/
structure TokenInfo where
  userID : String
  accessToken : String
  refreshToken : String
  tokenType : String
  expiresIn : Int
  issuedAt : Int
  expiresAt : Int
  refreshIssuedAt : Int
  refreshExpiresAt : Int
deriving DecidableEq, Repr

/-- Token table: association list keyed by user id. -/
abbrev TokenStore := List (String × TokenInfo)

/-- Database read of the row whose user_id equals uid (db.Where + First). -/
def findTok : TokenStore → String → Option TokenInfo
  | [], _ => none
  | (u, t) :: rest, uid => if u = uid then some t else findTok rest uid

/-- Database write of the row keyed by uid: replaces the existing row for uid
or inserts a row if none exists. -/
def setTok : TokenStore → String → TokenInfo → TokenStore
  | [], uid, t => [(uid, t)]
  | (u, x) :: rest, uid, t =>
      if u = uid then (u, t) :: rest else (u, x) :: setTok rest uid t

/-- GORM struct-based Updates and Assign skip fields holding the Go zero
value; this merges such a struct update into an existing row field by
field. -/
def gormMergeInfo (old upd : TokenInfo) : TokenInfo where
  userID := if upd.userID = "" then old.userID else upd.userID
  accessToken := if upd.accessToken = "" then old.accessToken else upd.accessToken
  refreshToken := if upd.refreshToken = "" then old.refreshToken else upd.refreshToken
  tokenType := if upd.tokenType = "" then old.tokenType else upd.tokenType
  expiresIn := if upd.expiresIn = 0 then old.expiresIn else upd.expiresIn
  issuedAt := if upd.issuedAt = 0 then old.issuedAt else upd.issuedAt
  expiresAt := if upd.expiresAt = 0 then old.expiresAt else upd.expiresAt
  refreshIssuedAt := if upd.refreshIssuedAt = 0 then old.refreshIssuedAt else upd.refreshIssuedAt
  refreshExpiresAt := if upd.refreshExpiresAt = 0 then old.refreshExpiresAt else upd.refreshExpiresAt

/-- Outcome of a POST to the OAuth token endpoint, as seen by a handler:
transport error, non-200 reply, 200 with undecodable JSON, or the decoded
token response. -/
inductive TokenUpstream where
  | netErr : TokenUpstream
  | httpErr (status : Nat) (body : String) : TokenUpstream
  | badJson : TokenUpstream
  | ok (resp : TokenResponse) : TokenUpstream
deriving DecidableEq

/-- Error cases of the GET /api/v1/callback handler. -/
inductive CallbackErr where
  | invalidState : CallbackErr
  | missingCode : CallbackErr
  | networkFailed : CallbackErr
  | exchangeFailed : CallbackErr
  | malformedResponse : CallbackErr
deriving DecidableEq

/-- HTTP status written by the callback handler for each error case. -/
def callbackErrStatus : CallbackErr → Nat
  | .invalidState => 400
  | .missingCode => 400
  | .networkFailed => 500
  | .exchangeFailed => 500
  | .malformedResponse => 500

/-- Result of one run of the callback handler: response outcome, token table
after the run, and the number of POSTs made to the token endpoint. -/
structure CallbackOut where
  result : Except CallbackErr Unit
  store : TokenStore
  tokenCalls : Nat
deriving DecidableEq

/-- GET /api/v1/callback handler (main.go): validates state and code, posts
the authorization code to the token endpoint, and on success upserts the
TokenInfo row for user1 (Where + Assign + FirstOrCreate). -/
def callbackHandler (code state : String) (up : TokenUpstream) (now : Int)
    (s : TokenStore) : CallbackOut :=
  if state ≠ "xyz123" then ⟨.error .invalidState, s, 0⟩
  else if code = "" then ⟨.error .missingCode, s, 0⟩
  else
    match up with
    | .netErr => ⟨.error .networkFailed, s, 1⟩
    | .httpErr _ _ => ⟨.error .exchangeFailed, s, 1⟩
    | .badJson => ⟨.error .malformedResponse, s, 1⟩
    | .ok resp =>
      let tok : TokenInfo :=
        ⟨"user1", resp.accessToken, resp.refreshToken, resp.tokenType,
          resp.expiresIn, now, now + resp.expiresIn, now, now + resp.expiresIn⟩
      let s2 :=
        match findTok s "user1" with
        | none => setTok s "user1" tok
        | some old => setTok s "user1" (gormMergeInfo old tok)
      ⟨.ok (), s2, 1⟩

/-- Error cases of the POST /GetAccessToken handler. -/
inductive RefreshErr where
  | noToken : RefreshErr
  | noRefreshToken : RefreshErr
  | refreshExpired : RefreshErr
  | networkFailed : RefreshErr
  | refreshFailed : RefreshErr
  | malformedResponse : RefreshErr
deriving DecidableEq

/-- HTTP status written by the POST /GetAccessToken handler for each error
case. -/
def refreshErrStatus : RefreshErr → Nat
  | .noToken => 401
  | .noRefreshToken => 400
  | .refreshExpired => 401
  | .networkFailed => 500
  | .refreshFailed => 500
  | .malformedResponse => 500

/-- Result of one run of the POST /GetAccessToken handler. -/
structure RefreshOut where
  result : Except RefreshErr TokenResponse
  store : TokenStore
  tokenCalls : Nat
deriving DecidableEq

/-- POST /GetAccessToken handler (main.go): reads the user1 row, rejects an
empty refresh token and an expired refresh window before any upstream call,
otherwise posts grant_type=refresh_token and on success writes the fresh
TokenInfo struct over the row (struct-based Updates). -/
def refreshTokenHandler (up : TokenUpstream) (now : Int) (s : TokenStore) :
    RefreshOut :=
  match findTok s "user1" with
  | none => ⟨.error .noToken, s, 0⟩
  | some ti =>
    if ti.refreshToken = "" then ⟨.error .noRefreshToken, s, 0⟩
    else if now > ti.refreshExpiresAt then ⟨.error .refreshExpired, s, 0⟩
    else
      match up with
      | .netErr => ⟨.error .networkFailed, s, 1⟩
      | .httpErr _ _ => ⟨.error .refreshFailed, s, 1⟩
      | .badJson => ⟨.error .malformedResponse, s, 1⟩
      | .ok resp =>
        let upd : TokenInfo :=
          ⟨"user1", resp.accessToken, resp.refreshToken, resp.tokenType,
            resp.expiresIn, now, now + resp.expiresIn, now, now + resp.expiresIn⟩
        ⟨.ok resp, setTok s "user1" (gormMergeInfo ti upd), 1⟩

/-- Outcome of a POST refreshing an access token through a bare
access_token-only response (helper.go GetAccessToken and dataService.go
refreshAccessToken both decode just that field). -/
inductive RefreshUpstream where
  | netErr : RefreshUpstream
  | httpErr (status : Nat) (body : String) : RefreshUpstream
  | badJson : RefreshUpstream
  | ok (accessToken : String) : RefreshUpstream
deriving DecidableEq

/-- helper.go GetAccessToken: posts grant_type=refresh_token to the token
endpoint and returns the new access token; a transport error, non-200 reply,
undecodable body, or empty access token is an error. -/
def GetAccessToken (up : RefreshUpstream) : Except String String :=
  match up with
  | .netErr => .error "failed to refresh token"
  | .httpErr _ _ => .error "refresh token request failed"
  | .badJson => .error "failed to parse refresh response"
  | .ok tok => if tok = "" then .error "no access token in refresh response" else .ok tok

/-- Error cases of the token step of the GET /get-products handler. -/
inductive ProductsErr where
  | noToken : ProductsErr
  | refreshFailed : ProductsErr
deriving DecidableEq

/-- HTTP status written by the /get-products handler for each token-step
error case. -/
def productsErrStatus : ProductsErr → Nat
  | .noToken => 401
  | .refreshFailed => 401

/-- Result of the token step of the GET /get-products handler: the access
token handed to the products API on success, the token table after the step,
and the number of refresh calls performed. -/
structure ProductsOut where
  result : Except ProductsErr String
  store : TokenStore
  refreshCalls : Nat
deriving DecidableEq

/-- GET /get-products handler, token step (main.go): reads the user1 row; if
now is past expiresAt it calls GetAccessToken once and, on success, applies a
map-based Updates writing access_token, expires_at, issued_at and
refresh_issued_at while keeping the previous refresh_expires_at, then uses
the new token; otherwise it uses the stored token untouched. -/
def getProductsTokenStep (ru : RefreshUpstream) (now : Int) (s : TokenStore) :
    ProductsOut :=
  match findTok s "user1" with
  | none => ⟨.error .noToken, s, 0⟩
  | some ti =>
    if now > ti.expiresAt then
      match GetAccessToken ru with
      | .error _ => ⟨.error .refreshFailed, s, 1⟩
      | .ok newTok =>
        let updated : TokenInfo :=
          { ti with
            accessToken := newTok
            expiresAt := now + ti.expiresIn
            issuedAt := now
            refreshIssuedAt := now
            refreshExpiresAt := ti.refreshExpiresAt }
        ⟨.ok newTok, setTok s "user1" updated, 1⟩
    else ⟨.ok ti.accessToken, s, 0⟩

/-- Customer details inside an order (dataService.go, Customer); the raw API
items reuse this same type. -/
structure Customer where
  name : String
  address : String
  note : String
  email : String
  phone : String
  city : String
deriving DecidableEq, Repr

/-- Converted order (dataService.go, Order), creation time as an integer. -/
structure Order where
  id : String
  customer : Customer
  status : String
  createdAt : Int
deriving DecidableEq, Repr

/-- Raw order item of the upstream JSON envelope, with created_at still a
string. -/
structure RawOrderItem where
  id : String
  customer : Customer
  status : String
  createdAt : String
deriving DecidableEq, Repr

/-- Query parameters for fetching orders (dataService.go,
CustomerOrderQuery); the Go *bool fields become Option Bool. -/
structure CustomerOrderQuery where
  page : Int
  limit : Int
  status : String
  archived : Option Bool
  abandoned : Option Bool
  deleted : Option Bool
  search : String
  product : String
  deliveryCompany : String
deriving DecidableEq, Repr

/-- Columns ListOrders reads from the token row (its anonymous Go struct):
access_token, refresh_token, expires_at and store_id. -/
structure TokenRow where
  accessToken : String
  refreshToken : String
  expiresAt : Int
  storeID : String
deriving DecidableEq, Repr

/-- Go fmt with the %t verb. -/
def goBoolString : Bool → String
  | true => "true"
  | false => "false"

/-- Go pattern: if value != "" then q.Add(key, value). -/
def strParam (key value : String) : List (String × String) :=
  if value ≠ "" then [(key, value)] else []

/-- Go pattern: if flag != nil then q.Add(key, fmt %t of *flag). -/
def optBoolParam (key : String) (flag : Option Bool) : List (String × String) :=
  match flag with
  | some b => [(key, goBoolString b)]
  | none => []

/-- Query-string pairs ListOrders adds to the orders request (dataService.go
lines 168-198): store_id from the row when non-empty, otherwise the
hardcoded fallback; page and limit always; the remaining filters only when
set. -/
def buildOrdersQuery (storeID : String) (q : CustomerOrderQuery) :
    List (String × String) :=
  (if storeID ≠ "" then [("store_id", storeID)]
   else [("store_id", "651157ac4a069ab1e26081a9")])
  ++ [("page", toString q.page), ("limit", toString q.limit)]
  ++ strParam "status" q.status
  ++ optBoolParam "archived" q.archived
  ++ optBoolParam "abandoned" q.abandoned
  ++ optBoolParam "deleted" q.deleted
  ++ strParam "search" q.search
  ++ strParam "product" q.product
  ++ strParam "deliveryCompany" q.deliveryCompany

/-- dataService.go refreshAccessToken: posts to the local /GetAccessToken
endpoint and returns the access token from its reply; a transport error,
non-200 reply, undecodable body, or empty access token is an error. -/
def refreshAccessToken (up : RefreshUpstream) : Except String String :=
  match up with
  | .netErr => .error "failed to refresh token"
  | .httpErr _ _ => .error "refresh token request failed"
  | .badJson => .error "failed to parse refresh response"
  | .ok tok => if tok = "" then .error "no access token in refresh response" else .ok tok

/-- Body of one reply of the orders endpoint: undecodable JSON, or the
decoded success/message/data envelope. -/
inductive OrdersBody where
  | badJson : OrdersBody
  | envelope (success : Bool) (message : String) (data : List RawOrderItem) : OrdersBody
deriving DecidableEq

/-- One reply of the orders endpoint: transport error, or a status code with
a body. -/
inductive ApiResp where
  | netErr : ApiResp
  | reply (status : Nat) (body : OrdersBody) : ApiResp
deriving DecidableEq

/-- Error cases of ListOrders. -/
inductive OrderErr where
  | noToken : OrderErr
  | preRefreshFailed : OrderErr
  | fetchFailed : OrderErr
  | retryRefreshFailed : OrderErr
  | retryFetchFailed : OrderErr
  | apiError (status : Nat) : OrderErr
  | parseError : OrderErr
  | upstreamRejected (message : String) : OrderErr
deriving DecidableEq

/-- Per-item conversion loop of ListOrders (dataService.go lines 254-267):
parse created_at with time.Parse RFC3339 and fall back to the current time
when parsing fails. -/
def convertItems (parseTime : String → Option Int) (now : Int)
    (items : List RawOrderItem) : List Order :=
  items.map fun it =>
    { id := it.id
      customer := it.customer
      status := it.status
      createdAt :=
        match parseTime it.createdAt with
        | some t => t
        | none => now }

/-- Tail of ListOrders after the final reply is fixed (dataService.go lines
226-269): non-200 status fails, then the envelope is decoded, success=false
fails with the envelope message, and the items are converted. -/
def finishOrders (status : Nat) (body : OrdersBody)
    (parseTime : String → Option Int) (now : Int) :
    Except OrderErr (List Order) :=
  if status ≠ 200 then .error (.apiError status)
  else
    match body with
    | .badJson => .error .parseError
    | .envelope success msg data =>
      if success then .ok (convertItems parseTime now data)
      else .error (.upstreamRejected msg)

/-- Result of one run of ListOrders: the outcome, the number of pre-flight
refreshes, retry refreshes and order queries performed, the query parameters
of the first and of the retried request, the bearer token of the first
request, and the token row as it stood in the database when the first request
was issued. -/
structure ListOrdersOut where
  result : Except OrderErr (List Order)
  preRefreshes : Nat
  retryRefreshes : Nat
  queries : Nat
  firstParams : Option (List (String × String))
  retryParams : Option (List (String × String))
  firstToken : Option String
  rowAfterPre : Option TokenRow
deriving DecidableEq

/-- Query phase of ListOrders (dataService.go lines 200-269): issue the
request once; on a 401 refresh via refreshAccessToken, write the new token,
and reissue the identical request exactly once; then hand the final reply to
finishOrders. -/
def listOrdersQueryPhase (r : TokenRow) (preN : Nat)
    (qs : List (String × String)) (retryRU : RefreshUpstream)
    (resp1 resp2 : ApiResp) (parseTime : String → Option Int) (now : Int) :
    ListOrdersOut :=
  match resp1 with
  | .netErr =>
    ⟨.error .fetchFailed, preN, 0, 1, some qs, none, some r.accessToken, some r⟩
  | .reply st1 b1 =>
    if st1 = 401 then
      match refreshAccessToken retryRU with
      | .error _ =>
        ⟨.error .retryRefreshFailed, preN, 1, 1, some qs, none,
          some r.accessToken, some r⟩
      | .ok _ =>
        match resp2 with
        | .netErr =>
          ⟨.error .retryFetchFailed, preN, 1, 2, some qs, some qs,
            some r.accessToken, some r⟩
        | .reply st2 b2 =>
          ⟨finishOrders st2 b2 parseTime now, preN, 1, 2, some qs, some qs,
            some r.accessToken, some r⟩
    else
      ⟨finishOrders st1 b1 parseTime now, preN, 0, 1, some qs, none,
        some r.accessToken, some r⟩

/-- GormDataService.ListOrders (dataService.go lines 133-270): read the token
row, refresh up front when now is past expires_at (writing only the
access_token column), build the query string once, then run the query phase
with its single 401 retry. -/
def listOrders (row : Option TokenRow) (preRU retryRU : RefreshUpstream)
    (resp1 resp2 : ApiResp) (parseTime : String → Option Int) (now : Int)
    (q : CustomerOrderQuery) : ListOrdersOut :=
  match row with
  | none => ⟨.error .noToken, 0, 0, 0, none, none, none, none⟩
  | some r =>
    if now > r.expiresAt then
      match refreshAccessToken preRU with
      | .error _ => ⟨.error .preRefreshFailed, 1, 0, 0, none, none, none, none⟩
      | .ok t =>
        let r2 : TokenRow := { r with accessToken := t }
        listOrdersQueryPhase r2 1 (buildOrdersQuery r2.storeID q) retryRU
          resp1 resp2 parseTime now
    else
      listOrdersQueryPhase r 0 (buildOrdersQuery r.storeID q) retryRU
        resp1 resp2 parseTime now

/-- Writing a row for uid and reading uid back yields that row. -/
theorem findTok_setTok_self (s : TokenStore) (uid : String) (t : TokenInfo) :
    findTok (setTok s uid t) uid = some t := by
  induction s with
  | nil => simp [setTok, findTok]
  | cons hd tl ih =>
    obtain ⟨u, x⟩ := hd
    by_cases hu : u = uid
    · simp [setTok, hu, findTok]
    · simp [setTok, hu, findTok, ih]

/-- Writing a row for uid leaves every other key unchanged. -/
theorem findTok_setTok_other (s : TokenStore) (uid uid2 : String)
    (t : TokenInfo) (h : uid2 ≠ uid) :
    findTok (setTok s uid t) uid2 = findTok s uid2 := by
  induction s with
  | nil => simp [setTok, findTok, Ne.symm h]
  | cons hd tl ih =>
    obtain ⟨u, x⟩ := hd
    by_cases hu : u = uid
    · subst hu
      simp [setTok, findTok, Ne.symm h]
    · by_cases hu2 : u = uid2
      · simp [setTok, hu, findTok, hu2, h]
      · simp [setTok, hu, findTok, hu2, ih]

/-- C1: for a stored token that is stale but inside its refresh window
(now past expiresAt, now at most refreshExpiresAt), the token step of the
/get-products handler performs exactly one upstream refresh call and hands
the freshly obtained access token, not the stored one, to the products
request. -/
theorem C1_stale_token_single_refresh (s : TokenStore) (ti : TokenInfo)
    (ru : RefreshUpstream) (now : Int) (t : String)
    (hfind : findTok s "user1" = some ti)
    (hstale : now > ti.expiresAt)
    (_hwindow : now ≤ ti.refreshExpiresAt)
    (hup : GetAccessToken ru = Except.ok t) :
    (getProductsTokenStep ru now s).refreshCalls = 1 ∧
    (getProductsTokenStep ru now s).result = Except.ok t := by
  simp [getProductsTokenStep, hfind, hstale, hup]

/-- C1 witness: a concrete stale token inside its refresh window is
refreshed exactly once and the new token is used. -/
theorem C1_witness :
    (getProductsTokenStep (RefreshUpstream.ok "newtok") 20
        [("user1", ⟨"user1", "oldtok", "ref", "Bearer", 60, 0, 10, 0, 100⟩)]).refreshCalls = 1 ∧
    (getProductsTokenStep (RefreshUpstream.ok "newtok") 20
        [("user1", ⟨"user1", "oldtok", "ref", "Bearer", 60, 0, 10, 0, 100⟩)]).result =
      Except.ok "newtok" :=
  C1_stale_token_single_refresh
    [("user1", ⟨"user1", "oldtok", "ref", "Bearer", 60, 0, 10, 0, 100⟩)]
    ⟨"user1", "oldtok", "ref", "Bearer", 60, 0, 10, 0, 100⟩
    (RefreshUpstream.ok "newtok") 20 "newtok"
    (by decide) (by decide) (by decide) (by decide)

/-- C3 counterexample: a stored row whose refresh window has ended (now = 20,
refreshExpiresAt = 10) but whose refresh token is empty makes the POST
/GetAccessToken handler fail with NoRefreshToken (HTTP 400), not with
RefreshTokenExpired (HTTP 401) as the claim states for every stored record. -/
theorem C3_counterexample :
    (20 : Int) > 10 ∧
    (refreshTokenHandler (TokenUpstream.ok ⟨"a", "r", 60, "Bearer"⟩) 20
        [("user1", ⟨"user1", "acc", "", "Bearer", 60, 0, 10, 0, 10⟩)]).result =
      Except.error RefreshErr.noRefreshToken ∧
    refreshErrStatus RefreshErr.noRefreshToken = 400 ∧
    refreshErrStatus RefreshErr.noRefreshToken ≠ 401 := by
  decide

/-- C3 amended: for every stored row with a non-empty refresh token whose
refresh window has ended (now past refreshExpiresAt), the POST
/GetAccessToken handler fails with RefreshTokenExpired (HTTP 401), performs
no upstream call and writes nothing to the database; a row with an empty
refresh token fails earlier with NoRefreshToken (HTTP 400), likewise with no
upstream call and no write. -/
theorem C3_amended_refresh_expired_no_call (s : TokenStore) (ti : TokenInfo)
    (up : TokenUpstream) (now : Int)
    (hfind : findTok s "user1" = some ti)
    (hexp : now > ti.refreshExpiresAt) :
    ((ti.refreshToken ≠ "" →
        (refreshTokenHandler up now s).result = Except.error RefreshErr.refreshExpired ∧
        refreshErrStatus RefreshErr.refreshExpired = 401) ∧
      (ti.refreshToken = "" →
        (refreshTokenHandler up now s).result = Except.error RefreshErr.noRefreshToken)) ∧
    (refreshTokenHandler up now s).tokenCalls = 0 ∧
    (refreshTokenHandler up now s).store = s := by
  by_cases hrt : ti.refreshToken = ""
  · simp [refreshTokenHandler, hfind, hrt, refreshErrStatus]
  · simp [refreshTokenHandler, hfind, hrt, hexp, refreshErrStatus]

/-- C3 witness: a concrete expired refresh window with a non-empty refresh
token yields the 401 RefreshTokenExpired failure, no upstream call and no
database write. -/
theorem C3_amended_witness :
    ((("ref" : String) ≠ "" →
        (refreshTokenHandler (TokenUpstream.ok ⟨"a", "r", 60, "Bearer"⟩) 20
            [("user1", ⟨"user1", "acc", "ref", "Bearer", 60, 0, 10, 0, 10⟩)]).result =
          Except.error RefreshErr.refreshExpired ∧
        refreshErrStatus RefreshErr.refreshExpired = 401) ∧
      (("ref" : String) = "" →
        (refreshTokenHandler (TokenUpstream.ok ⟨"a", "r", 60, "Bearer"⟩) 20
            [("user1", ⟨"user1", "acc", "ref", "Bearer", 60, 0, 10, 0, 10⟩)]).result =
          Except.error RefreshErr.noRefreshToken)) ∧
    (refreshTokenHandler (TokenUpstream.ok ⟨"a", "r", 60, "Bearer"⟩) 20
        [("user1", ⟨"user1", "acc", "ref", "Bearer", 60, 0, 10, 0, 10⟩)]).tokenCalls = 0 ∧
    (refreshTokenHandler (TokenUpstream.ok ⟨"a", "r", 60, "Bearer"⟩) 20
        [("user1", ⟨"user1", "acc", "ref", "Bearer", 60, 0, 10, 0, 10⟩)]).store =
      [("user1", ⟨"user1", "acc", "ref", "Bearer", 60, 0, 10, 0, 10⟩)] :=
  C3_amended_refresh_expired_no_call
    [("user1", ⟨"user1", "acc", "ref", "Bearer", 60, 0, 10, 0, 10⟩)]
    ⟨"user1", "acc", "ref", "Bearer", 60, 0, 10, 0, 10⟩
    (TokenUpstream.ok ⟨"a", "r", 60, "Bearer"⟩) 20
    (by decide) (by decide)

/-- C4: a callback request whose state parameter differs from the expected
value xyz123 fails with InvalidState (HTTP 400) before any upstream call and
leaves the token table unchanged. -/
theorem C4_invalid_state_no_call (code state : String) (up : TokenUpstream)
    (now : Int) (s : TokenStore)
    (h : state ≠ "xyz123") :
    (callbackHandler code state up now s).result = Except.error CallbackErr.invalidState ∧
    callbackErrStatus CallbackErr.invalidState = 400 ∧
    (callbackHandler code state up now s).tokenCalls = 0 ∧
    (callbackHandler code state up now s).store = s := by
  simp [callbackHandler, h, callbackErrStatus]

/-- C4 witness: a concrete mismatched state is rejected with 400 before any
network call, and the stored token row survives untouched. -/
theorem C4_witness :
    (callbackHandler "code1" "evil" (TokenUpstream.ok ⟨"a", "r", 60, "Bearer"⟩) 5
        [("user1", ⟨"user1", "acc", "ref", "Bearer", 60, 0, 10, 0, 10⟩)]).result =
      Except.error CallbackErr.invalidState ∧
    callbackErrStatus CallbackErr.invalidState = 400 ∧
    (callbackHandler "code1" "evil" (TokenUpstream.ok ⟨"a", "r", 60, "Bearer"⟩) 5
        [("user1", ⟨"user1", "acc", "ref", "Bearer", 60, 0, 10, 0, 10⟩)]).tokenCalls = 0 ∧
    (callbackHandler "code1" "evil" (TokenUpstream.ok ⟨"a", "r", 60, "Bearer"⟩) 5
        [("user1", ⟨"user1", "acc", "ref", "Bearer", 60, 0, 10, 0, 10⟩)]).store =
      [("user1", ⟨"user1", "acc", "ref", "Bearer", 60, 0, 10, 0, 10⟩)] :=
  C4_invalid_state_no_call "code1" "evil" (TokenUpstream.ok ⟨"a", "r", 60, "Bearer"⟩) 5
    [("user1", ⟨"user1", "acc", "ref", "Bearer", 60, 0, 10, 0, 10⟩)]
    (by decide)

/-- Existence of a key in an appended parameter list splits over the two
halves. -/
theorem exists_pair_mem_append (k : String) (l1 l2 : List (String × String)) :
    (∃ v, (k, v) ∈ l1 ++ l2) ↔ (∃ v, (k, v) ∈ l1) ∨ (∃ v, (k, v) ∈ l2) := by
  simp [List.mem_append, exists_or]

/-- Existence of a key among the pairs a strParam contributes. -/
theorem exists_pair_mem_strParam (k key value : String) :
    (∃ v, (k, v) ∈ strParam key value) ↔ value ≠ "" ∧ k = key := by
  by_cases h : value = "" <;> simp [strParam, h]

/-- Existence of a key among the pairs an optBoolParam contributes. -/
theorem exists_pair_mem_optBoolParam (k key : String) (flag : Option Bool) :
    (∃ v, (k, v) ∈ optBoolParam key flag) ↔ flag.isSome ∧ k = key := by
  cases flag <;> simp [optBoolParam]

/-- C10: the query string ListOrders builds always carries store_id (the
value from the token row when non-empty, otherwise the hardcoded fallback),
always carries page and limit, and carries status, archived, abandoned,
deleted, search, product and deliveryCompany exactly when the corresponding
filter is set. -/
theorem C10_query_parameters (storeID : String) (q : CustomerOrderQuery) :
    ("store_id",
        if storeID ≠ "" then storeID else "651157ac4a069ab1e26081a9") ∈
      buildOrdersQuery storeID q ∧
    ("page", toString q.page) ∈ buildOrdersQuery storeID q ∧
    ("limit", toString q.limit) ∈ buildOrdersQuery storeID q ∧
    ((∃ v, ("status", v) ∈ buildOrdersQuery storeID q) ↔ q.status ≠ "") ∧
    ((∃ v, ("archived", v) ∈ buildOrdersQuery storeID q) ↔ q.archived.isSome) ∧
    ((∃ v, ("abandoned", v) ∈ buildOrdersQuery storeID q) ↔ q.abandoned.isSome) ∧
    ((∃ v, ("deleted", v) ∈ buildOrdersQuery storeID q) ↔ q.deleted.isSome) ∧
    ((∃ v, ("search", v) ∈ buildOrdersQuery storeID q) ↔ q.search ≠ "") ∧
    ((∃ v, ("product", v) ∈ buildOrdersQuery storeID q) ↔ q.product ≠ "") ∧
    ((∃ v, ("deliveryCompany", v) ∈ buildOrdersQuery storeID q) ↔
      q.deliveryCompany ≠ "") := by
  refine ⟨?_, ?_, ?_, ?_, ?_, ?_, ?_, ?_, ?_, ?_⟩
  · by_cases h1 : storeID = "" <;> simp [buildOrdersQuery, h1]
  · by_cases h1 : storeID = "" <;> simp [buildOrdersQuery, h1]
  · by_cases h1 : storeID = "" <;> simp [buildOrdersQuery, h1]
  all_goals
    by_cases h1 : storeID = "" <;>
      simp [buildOrdersQuery, h1, exists_pair_mem_append, exists_or,
        exists_pair_mem_strParam, exists_pair_mem_optBoolParam]

/-- Merging a struct update whose fields are all non-zero replaces the whole
row. -/
theorem gormMergeInfo_eq (old upd : TokenInfo)
    (h1 : upd.userID ≠ "") (h2 : upd.accessToken ≠ "")
    (h3 : upd.refreshToken ≠ "") (h4 : upd.tokenType ≠ "")
    (h5 : upd.expiresIn ≠ 0) (h6 : upd.issuedAt ≠ 0) (h7 : upd.expiresAt ≠ 0)
    (h8 : upd.refreshIssuedAt ≠ 0) (h9 : upd.refreshExpiresAt ≠ 0) :
    gormMergeInfo old upd = upd := by
  obtain ⟨a, b, c, d, e, f, g, hh, i⟩ := upd
  simp_all [gormMergeInfo]

/-- C5: a successful authorization-code exchange (with a well-formed token
response: non-empty tokens and type, non-zero expiry, at a non-zero clock,
since the ORM skips zero-valued struct fields when assigning over an existing
row) stores for user1 exactly the record built from the response, whose
expiresAt equals issuedAt plus expiresIn, creating the row if absent and
overwriting any prior row for the same user while leaving every other user
untouched. -/
theorem C5_exchange_upsert (code : String) (resp : TokenResponse) (now : Int)
    (s : TokenStore)
    (hc : code ≠ "")
    (ha : resp.accessToken ≠ "") (hr : resp.refreshToken ≠ "")
    (htt : resp.tokenType ≠ "") (he : resp.expiresIn ≠ 0)
    (hn : now ≠ 0) (hne : now + resp.expiresIn ≠ 0) :
    (callbackHandler code "xyz123" (TokenUpstream.ok resp) now s).result = Except.ok () ∧
    findTok (callbackHandler code "xyz123" (TokenUpstream.ok resp) now s).store "user1" =
      some ⟨"user1", resp.accessToken, resp.refreshToken, resp.tokenType,
        resp.expiresIn, now, now + resp.expiresIn, now, now + resp.expiresIn⟩ ∧
    (∀ rec, findTok (callbackHandler code "xyz123" (TokenUpstream.ok resp) now s).store "user1" =
        some rec → rec.expiresAt = rec.issuedAt + rec.expiresIn) ∧
    (∀ uid, uid ≠ "user1" →
      findTok (callbackHandler code "xyz123" (TokenUpstream.ok resp) now s).store uid =
        findTok s uid) := by
  have hs2 : (callbackHandler code "xyz123" (TokenUpstream.ok resp) now s).store =
      setTok s "user1" ⟨"user1", resp.accessToken, resp.refreshToken, resp.tokenType,
        resp.expiresIn, now, now + resp.expiresIn, now, now + resp.expiresIn⟩ := by
    cases hfind : findTok s "user1" with
    | none => simp [callbackHandler, hc, hfind]
    | some old =>
      have hm := gormMergeInfo_eq old
        ⟨"user1", resp.accessToken, resp.refreshToken, resp.tokenType,
          resp.expiresIn, now, now + resp.expiresIn, now, now + resp.expiresIn⟩
        (by simp) ha hr htt he hn hne hn hne
      simp [callbackHandler, hc, hfind, hm]
  refine ⟨?_, ?_, ?_, ?_⟩
  · cases hfind : findTok s "user1" <;> simp [callbackHandler, hc, hfind]
  · rw [hs2, findTok_setTok_self]
  · intro rec hrec
    rw [hs2, findTok_setTok_self] at hrec
    cases hrec
    rfl
  · intro uid huid
    rw [hs2, findTok_setTok_other _ _ _ _ huid]

/-- C5 witness: a concrete exchange over an existing row for user1 and a row
for another user stores the fresh record, keeps expiresAt = issuedAt +
expiresIn, and leaves the other user alone. -/
theorem C5_witness :
    (callbackHandler "c1" "xyz123" (TokenUpstream.ok ⟨"na", "nr", 60, "Bearer"⟩) 7
        [("user1", ⟨"user1", "acc", "ref", "Bearer", 30, 0, 10, 0, 10⟩)]).result = Except.ok () ∧
    findTok (callbackHandler "c1" "xyz123" (TokenUpstream.ok ⟨"na", "nr", 60, "Bearer"⟩) 7
        [("user1", ⟨"user1", "acc", "ref", "Bearer", 30, 0, 10, 0, 10⟩)]).store "user1" =
      some ⟨"user1", "na", "nr", "Bearer", 60, 7, 67, 7, 67⟩ ∧
    (∀ rec, findTok (callbackHandler "c1" "xyz123" (TokenUpstream.ok ⟨"na", "nr", 60, "Bearer"⟩) 7
        [("user1", ⟨"user1", "acc", "ref", "Bearer", 30, 0, 10, 0, 10⟩)]).store "user1" =
        some rec → rec.expiresAt = rec.issuedAt + rec.expiresIn) ∧
    (∀ uid, uid ≠ "user1" →
      findTok (callbackHandler "c1" "xyz123" (TokenUpstream.ok ⟨"na", "nr", 60, "Bearer"⟩) 7
          [("user1", ⟨"user1", "acc", "ref", "Bearer", 30, 0, 10, 0, 10⟩)]).store uid =
        findTok [("user1", ⟨"user1", "acc", "ref", "Bearer", 30, 0, 10, 0, 10⟩)] uid) :=
  C5_exchange_upsert "c1" ⟨"na", "nr", 60, "Bearer"⟩ 7
    [("user1", ⟨"user1", "acc", "ref", "Bearer", 30, 0, 10, 0, 10⟩)]
    (by decide) (by decide) (by decide) (by decide) (by decide) (by decide) (by decide)

/-- C6: a still-fresh stored token (now at most expiresAt) makes the token
step of the /get-products handler return the stored access token with no
refresh call and no change to the token table, and makes ListOrders issue its
first request with the stored access token, with no pre-flight refresh and
the database row untouched at that point. -/
theorem C6_fresh_token_unchanged (s : TokenStore) (ti : TokenInfo)
    (ru : RefreshUpstream) (now : Int)
    (row : TokenRow) (preRU retryRU : RefreshUpstream) (resp1 resp2 : ApiResp)
    (parseTime : String → Option Int) (now2 : Int) (q : CustomerOrderQuery)
    (hfind : findTok s "user1" = some ti)
    (hfresh : now ≤ ti.expiresAt)
    (hfresh2 : now2 ≤ row.expiresAt) :
    (getProductsTokenStep ru now s).result = Except.ok ti.accessToken ∧
    (getProductsTokenStep ru now s).refreshCalls = 0 ∧
    (getProductsTokenStep ru now s).store = s ∧
    (listOrders (some row) preRU retryRU resp1 resp2 parseTime now2 q).preRefreshes = 0 ∧
    (listOrders (some row) preRU retryRU resp1 resp2 parseTime now2 q).firstToken =
      some row.accessToken ∧
    (listOrders (some row) preRU retryRU resp1 resp2 parseTime now2 q).rowAfterPre =
      some row := by
  have h1 : ¬ now > ti.expiresAt := not_lt.mpr hfresh
  have h2 : ¬ now2 > row.expiresAt := not_lt.mpr hfresh2
  have hphase : ∀ qs, (listOrdersQueryPhase row 0 qs retryRU resp1 resp2 parseTime now2).preRefreshes = 0 ∧
      (listOrdersQueryPhase row 0 qs retryRU resp1 resp2 parseTime now2).firstToken =
        some row.accessToken ∧
      (listOrdersQueryPhase row 0 qs retryRU resp1 resp2 parseTime now2).rowAfterPre =
        some row := by
    intro qs
    cases resp1 with
    | netErr => simp [listOrdersQueryPhase]
    | reply st b =>
      by_cases h401 : st = 401
      · cases hrr : refreshAccessToken retryRU with
        | error e => simp [listOrdersQueryPhase, h401, hrr]
        | ok t => cases resp2 <;> simp [listOrdersQueryPhase, h401, hrr]
      · simp [listOrdersQueryPhase, h401]
  refine ⟨?_, ?_, ?_, ?_, ?_, ?_⟩
  · simp [getProductsTokenStep, hfind, h1]
  · simp [getProductsTokenStep, hfind, h1]
  · simp [getProductsTokenStep, hfind, h1]
  · simpa [listOrders, h2] using (hphase (buildOrdersQuery row.storeID q)).1
  · simpa [listOrders, h2] using (hphase (buildOrdersQuery row.storeID q)).2.1
  · simpa [listOrders, h2] using (hphase (buildOrdersQuery row.storeID q)).2.2

/-- C6 witness: a concrete fresh token is returned unchanged by the
/get-products token step with no refresh and no write, and a concrete fresh
row makes ListOrders query with the stored token after no pre-flight
refresh. -/
theorem C6_witness :
    (getProductsTokenStep (RefreshUpstream.ok "n") 5
        [("user1", ⟨"user1", "acc", "ref", "Bearer", 60, 0, 10, 0, 100⟩)]).result =
      Except.ok "acc" ∧
    (getProductsTokenStep (RefreshUpstream.ok "n") 5
        [("user1", ⟨"user1", "acc", "ref", "Bearer", 60, 0, 10, 0, 100⟩)]).refreshCalls = 0 ∧
    (getProductsTokenStep (RefreshUpstream.ok "n") 5
        [("user1", ⟨"user1", "acc", "ref", "Bearer", 60, 0, 10, 0, 100⟩)]).store =
      [("user1", ⟨"user1", "acc", "ref", "Bearer", 60, 0, 10, 0, 100⟩)] ∧
    (listOrders (some ⟨"ra", "rr", 10, "st1"⟩) (RefreshUpstream.ok "x")
        (RefreshUpstream.ok "y") (ApiResp.reply 200 (OrdersBody.envelope true "" []))
        (ApiResp.reply 200 (OrdersBody.envelope true "" []))
        (fun _ => none) 5 ⟨1, 10, "", none, none, none, "", "", ""⟩).preRefreshes = 0 ∧
    (listOrders (some ⟨"ra", "rr", 10, "st1"⟩) (RefreshUpstream.ok "x")
        (RefreshUpstream.ok "y") (ApiResp.reply 200 (OrdersBody.envelope true "" []))
        (ApiResp.reply 200 (OrdersBody.envelope true "" []))
        (fun _ => none) 5 ⟨1, 10, "", none, none, none, "", "", ""⟩).firstToken =
      some (⟨"ra", "rr", 10, "st1"⟩ : TokenRow).accessToken ∧
    (listOrders (some ⟨"ra", "rr", 10, "st1"⟩) (RefreshUpstream.ok "x")
        (RefreshUpstream.ok "y") (ApiResp.reply 200 (OrdersBody.envelope true "" []))
        (ApiResp.reply 200 (OrdersBody.envelope true "" []))
        (fun _ => none) 5 ⟨1, 10, "", none, none, none, "", "", ""⟩).rowAfterPre =
      some ⟨"ra", "rr", 10, "st1"⟩ :=
  C6_fresh_token_unchanged
    [("user1", ⟨"user1", "acc", "ref", "Bearer", 60, 0, 10, 0, 100⟩)]
    ⟨"user1", "acc", "ref", "Bearer", 60, 0, 10, 0, 100⟩
    (RefreshUpstream.ok "n") 5
    ⟨"ra", "rr", 10, "st1"⟩ (RefreshUpstream.ok "x") (RefreshUpstream.ok "y")
    (ApiResp.reply 200 (OrdersBody.envelope true "" []))
    (ApiResp.reply 200 (OrdersBody.envelope true "" []))
    (fun _ => none) 5 ⟨1, 10, "", none, none, none, "", "", ""⟩
    (by decide) (by decide) (by decide)

/-- Bound on the query phase: at most two order requests and at most one
retry refresh, whatever the upstream answers. -/
theorem listOrdersQueryPhase_bounds (r : TokenRow) (preN : Nat)
    (qs : List (String × String)) (ru : RefreshUpstream) (resp1 resp2 : ApiResp)
    (p : String → Option Int) (n : Int) :
    (listOrdersQueryPhase r preN qs ru resp1 resp2 p n).queries ≤ 2 ∧
    (listOrdersQueryPhase r preN qs ru resp1 resp2 p n).retryRefreshes ≤ 1 := by
  cases resp1 with
  | netErr => simp [listOrdersQueryPhase]
  | reply st b =>
    by_cases h401 : st = 401
    · cases hrr : refreshAccessToken ru with
      | error e => simp [listOrdersQueryPhase, h401, hrr]
      | ok t => cases resp2 <;> simp [listOrdersQueryPhase, h401, hrr]
    · simp [listOrdersQueryPhase, h401]

/-- Bound on a whole ListOrders run: at most two order requests and at most
one retry refresh, whatever the inputs. -/
theorem listOrders_bounds (row : Option TokenRow) (a b : RefreshUpstream)
    (c d : ApiResp) (p : String → Option Int) (n : Int)
    (q : CustomerOrderQuery) :
    (listOrders row a b c d p n q).queries ≤ 2 ∧
    (listOrders row a b c d p n q).retryRefreshes ≤ 1 := by
  cases row with
  | none => simp [listOrders]
  | some r =>
    by_cases hst : n > r.expiresAt
    · cases hra : refreshAccessToken a with
      | error e => simp [listOrders, hst, hra]
      | ok t =>
        simpa [listOrders, hst, hra] using
          listOrdersQueryPhase_bounds { r with accessToken := t } 1
            (buildOrdersQuery r.storeID q) b c d p n
    · simpa [listOrders, hst] using
        listOrdersQueryPhase_bounds r 0 (buildOrdersQuery r.storeID q) b c d p n

/-- C7: when the first orders request of a ListOrders run (entered with a
fresh token) comes back 401 and the inline refresh succeeds, exactly one
retry refresh happens, exactly two order requests are issued, the retried
request carries the same query parameters as the first, and the final reply
decides the outcome: parsed orders on a success envelope, UpstreamRejected on
success=false, APIError on a non-200 status; moreover, no run of ListOrders
whatsoever issues more than two order requests or more than one retry
refresh. -/
theorem C7_single_retry_on_401 (row : TokenRow) (preRU retryRU : RefreshUpstream)
    (b1 : OrdersBody) (resp2 : ApiResp) (parseTime : String → Option Int)
    (now : Int) (q : CustomerOrderQuery) (t2 : String)
    (hfresh : now ≤ row.expiresAt)
    (hretry : refreshAccessToken retryRU = Except.ok t2) :
    (listOrders (some row) preRU retryRU (ApiResp.reply 401 b1) resp2 parseTime now q).retryRefreshes = 1 ∧
    (listOrders (some row) preRU retryRU (ApiResp.reply 401 b1) resp2 parseTime now q).preRefreshes = 0 ∧
    (listOrders (some row) preRU retryRU (ApiResp.reply 401 b1) resp2 parseTime now q).queries = 2 ∧
    (listOrders (some row) preRU retryRU (ApiResp.reply 401 b1) resp2 parseTime now q).retryParams =
      (listOrders (some row) preRU retryRU (ApiResp.reply 401 b1) resp2 parseTime now q).firstParams ∧
    (listOrders (some row) preRU retryRU (ApiResp.reply 401 b1) resp2 parseTime now q).result =
      (match resp2 with
       | ApiResp.netErr => Except.error OrderErr.retryFetchFailed
       | ApiResp.reply st2 b2 => finishOrders st2 b2 parseTime now) ∧
    (∀ m d, finishOrders 200 (OrdersBody.envelope false m d) parseTime now =
      Except.error (OrderErr.upstreamRejected m)) ∧
    (∀ m d, finishOrders 200 (OrdersBody.envelope true m d) parseTime now =
      Except.ok (convertItems parseTime now d)) ∧
    (∀ st b, st ≠ 200 → finishOrders st b parseTime now =
      Except.error (OrderErr.apiError st)) ∧
    (∀ row2 a b c d p n2 q2, (listOrders row2 a b c d p n2 q2).queries ≤ 2 ∧
      (listOrders row2 a b c d p n2 q2).retryRefreshes ≤ 1) := by
  have h2 : ¬ now > row.expiresAt := not_lt.mpr hfresh
  refine ⟨?_, ?_, ?_, ?_, ?_, ?_, ?_, ?_, ?_⟩
  · cases resp2 <;> simp [listOrders, h2, listOrdersQueryPhase, hretry]
  · cases resp2 <;> simp [listOrders, h2, listOrdersQueryPhase, hretry]
  · cases resp2 <;> simp [listOrders, h2, listOrdersQueryPhase, hretry]
  · cases resp2 <;> simp [listOrders, h2, listOrdersQueryPhase, hretry]
  · cases resp2 <;> simp [listOrders, h2, listOrdersQueryPhase, hretry]
  · intro m d; simp [finishOrders]
  · intro m d; simp [finishOrders]
  · intro st b hst; simp [finishOrders, hst]
  · intro row2 a b c d p n2 q2; exact listOrders_bounds row2 a b c d p n2 q2

/-- C7 witness: a concrete 401 first reply with a succeeding refresh gives
one retry refresh, two requests with identical parameters, and a result
decided by the second reply. -/
theorem C7_witness :
    (listOrders (some ⟨"ra", "rr", 10, "s1"⟩) (RefreshUpstream.ok "x")
        (RefreshUpstream.ok "t2") (ApiResp.reply 401 OrdersBody.badJson)
        (ApiResp.reply 200 (OrdersBody.envelope true "" []))
        (fun _ => none) 5 ⟨1, 10, "", none, none, none, "", "", ""⟩).retryRefreshes = 1 ∧
    (listOrders (some ⟨"ra", "rr", 10, "s1"⟩) (RefreshUpstream.ok "x")
        (RefreshUpstream.ok "t2") (ApiResp.reply 401 OrdersBody.badJson)
        (ApiResp.reply 200 (OrdersBody.envelope true "" []))
        (fun _ => none) 5 ⟨1, 10, "", none, none, none, "", "", ""⟩).preRefreshes = 0 ∧
    (listOrders (some ⟨"ra", "rr", 10, "s1"⟩) (RefreshUpstream.ok "x")
        (RefreshUpstream.ok "t2") (ApiResp.reply 401 OrdersBody.badJson)
        (ApiResp.reply 200 (OrdersBody.envelope true "" []))
        (fun _ => none) 5 ⟨1, 10, "", none, none, none, "", "", ""⟩).queries = 2 ∧
    (listOrders (some ⟨"ra", "rr", 10, "s1"⟩) (RefreshUpstream.ok "x")
        (RefreshUpstream.ok "t2") (ApiResp.reply 401 OrdersBody.badJson)
        (ApiResp.reply 200 (OrdersBody.envelope true "" []))
        (fun _ => none) 5 ⟨1, 10, "", none, none, none, "", "", ""⟩).retryParams =
      (listOrders (some ⟨"ra", "rr", 10, "s1"⟩) (RefreshUpstream.ok "x")
        (RefreshUpstream.ok "t2") (ApiResp.reply 401 OrdersBody.badJson)
        (ApiResp.reply 200 (OrdersBody.envelope true "" []))
        (fun _ => none) 5 ⟨1, 10, "", none, none, none, "", "", ""⟩).firstParams ∧
    (listOrders (some ⟨"ra", "rr", 10, "s1"⟩) (RefreshUpstream.ok "x")
        (RefreshUpstream.ok "t2") (ApiResp.reply 401 OrdersBody.badJson)
        (ApiResp.reply 200 (OrdersBody.envelope true "" []))
        (fun _ => none) 5 ⟨1, 10, "", none, none, none, "", "", ""⟩).result =
      (match (ApiResp.reply 200 (OrdersBody.envelope true "" []) : ApiResp) with
       | ApiResp.netErr => Except.error OrderErr.retryFetchFailed
       | ApiResp.reply st2 b2 => finishOrders st2 b2 (fun _ => none) 5) ∧
    (∀ m d, finishOrders 200 (OrdersBody.envelope false m d) (fun _ => none) 5 =
      Except.error (OrderErr.upstreamRejected m)) ∧
    (∀ m d, finishOrders 200 (OrdersBody.envelope true m d) (fun _ => none) 5 =
      Except.ok (convertItems (fun _ => none) 5 d)) ∧
    (∀ st b, st ≠ 200 → finishOrders st b (fun _ => none) 5 =
      Except.error (OrderErr.apiError st)) ∧
    (∀ row2 a b c d p n2 q2, (listOrders row2 a b c d p n2 q2).queries ≤ 2 ∧
      (listOrders row2 a b c d p n2 q2).retryRefreshes ≤ 1) :=
  C7_single_retry_on_401 ⟨"ra", "rr", 10, "s1"⟩ (RefreshUpstream.ok "x")
    (RefreshUpstream.ok "t2") OrdersBody.badJson
    (ApiResp.reply 200 (OrdersBody.envelope true "" []))
    (fun _ => none) 5 ⟨1, 10, "", none, none, none, "", "", ""⟩ "t2"
    (by decide) (by decide)

/-- C8: on a successful envelope, ListOrders returns the item list converted
one by one; an item whose created_at string fails to parse yields an Order
carrying the current time instead of failing, while every other item is
converted from its own fields alone, and the list length is preserved. -/
theorem C8_created_at_fallback (row : TokenRow) (preRU retryRU : RefreshUpstream)
    (resp2 : ApiResp) (parseTime : String → Option Int) (now : Int)
    (q : CustomerOrderQuery) (m : String) (d : List RawOrderItem)
    (i : Nat) (it : RawOrderItem)
    (hfresh : now ≤ row.expiresAt)
    (hi : d[i]? = some it) :
    (listOrders (some row) preRU retryRU
        (ApiResp.reply 200 (OrdersBody.envelope true m d)) resp2 parseTime now q).result =
      Except.ok (convertItems parseTime now d) ∧
    (convertItems parseTime now d).length = d.length ∧
    (convertItems parseTime now d)[i]? =
      some ⟨it.id, it.customer, it.status,
        match parseTime it.createdAt with
        | some t => t
        | none => now⟩ := by
  have h2 : ¬ now > row.expiresAt := not_lt.mpr hfresh
  refine ⟨?_, ?_, ?_⟩
  · simp [listOrders, h2, listOrdersQueryPhase, finishOrders]
  · simp [convertItems]
  · simp [convertItems, List.getElem?_map, hi]

/-- C8 witness: a concrete two-item list with one unparsable created_at
yields the fallback time for that item and the parsed time for the other. -/
theorem C8_witness :
    (listOrders (some ⟨"ra", "rr", 10, "s1"⟩) (RefreshUpstream.ok "x")
        (RefreshUpstream.ok "y")
        (ApiResp.reply 200 (OrdersBody.envelope true ""
          [⟨"o1", ⟨"n", "a", "no", "e", "p", "c"⟩, "pending", "good"⟩,
           ⟨"o2", ⟨"n2", "a2", "no2", "e2", "p2", "c2"⟩, "shipped", "garbage"⟩]))
        (ApiResp.reply 200 (OrdersBody.envelope true "" []))
        (fun ts => if ts = "good" then some 1700000000 else none) 5
        ⟨1, 10, "", none, none, none, "", "", ""⟩).result =
      Except.ok (convertItems (fun ts => if ts = "good" then some 1700000000 else none) 5
        [⟨"o1", ⟨"n", "a", "no", "e", "p", "c"⟩, "pending", "good"⟩,
         ⟨"o2", ⟨"n2", "a2", "no2", "e2", "p2", "c2"⟩, "shipped", "garbage"⟩]) ∧
    (convertItems (fun ts => if ts = "good" then some 1700000000 else none) 5
        [⟨"o1", ⟨"n", "a", "no", "e", "p", "c"⟩, "pending", "good"⟩,
         ⟨"o2", ⟨"n2", "a2", "no2", "e2", "p2", "c2"⟩, "shipped", "garbage"⟩]).length = 2 ∧
    (convertItems (fun ts => if ts = "good" then some 1700000000 else none) 5
        [⟨"o1", ⟨"n", "a", "no", "e", "p", "c"⟩, "pending", "good"⟩,
         ⟨"o2", ⟨"n2", "a2", "no2", "e2", "p2", "c2"⟩, "shipped", "garbage"⟩])[1]? =
      some ⟨"o2", ⟨"n2", "a2", "no2", "e2", "p2", "c2"⟩, "shipped",
        match (fun ts => if ts = "good" then some 1700000000 else none) "garbage" with
        | some t => t
        | none => 5⟩ := by
  have h := C8_created_at_fallback ⟨"ra", "rr", 10, "s1"⟩ (RefreshUpstream.ok "x")
    (RefreshUpstream.ok "y") (ApiResp.reply 200 (OrdersBody.envelope true "" []))
    (fun ts => if ts = "good" then some 1700000000 else none) 5
    ⟨1, 10, "", none, none, none, "", "", ""⟩ ""
    [⟨"o1", ⟨"n", "a", "no", "e", "p", "c"⟩, "pending", "good"⟩,
     ⟨"o2", ⟨"n2", "a2", "no2", "e2", "p2", "c2"⟩, "shipped", "garbage"⟩]
    1 ⟨"o2", ⟨"n2", "a2", "no2", "e2", "p2", "c2"⟩, "shipped", "garbage"⟩
    (by decide) (by decide)
  exact ⟨h.1, by simpa using h.2.1, h.2.2⟩

/-- C2 counterexample: in the /get-products handler a successful refresh at a
concrete state (stored row expiring at 10 with refresh window until 100, the
clock at 50, expiresIn 60) stores a record whose refreshExpiresAt is still
the old 100, not a window reset relative to the new issuance time (which, as
the /GetAccessToken handler computes it, would be issuedAt + expiresIn =
110); so the claim that the /get-products refresh also resets the
refresh-expiry window is false. -/
theorem C2_counterexample :
    findTok (getProductsTokenStep (RefreshUpstream.ok "tok2") 50
        [("user1", ⟨"user1", "a", "r", "Bearer", 60, 0, 10, 0, 100⟩)]).store "user1" =
      some ⟨"user1", "tok2", "r", "Bearer", 60, 50, 110, 50, 100⟩ ∧
    (⟨"user1", "tok2", "r", "Bearer", 60, 50, 110, 50, 100⟩ : TokenInfo).refreshExpiresAt ≠
      (⟨"user1", "tok2", "r", "Bearer", 60, 50, 110, 50, 100⟩ : TokenInfo).issuedAt +
        (⟨"user1", "tok2", "r", "Bearer", 60, 50, 110, 50, 100⟩ : TokenInfo).expiresIn := by
  decide

/-- C2 amended: a successful refresh through the POST /GetAccessToken handler
(for a well-formed response with non-zero fields, since the ORM skips
zero-valued struct fields) overwrites the full stored record with the new
values, including a new refresh window with refreshIssuedAt = issuedAt = now
and refreshExpiresAt = now + expiresIn; the refresh inside the /get-products
handler instead updates only accessToken, issuedAt, expiresAt and
refreshIssuedAt, preserving the previously stored refreshExpiresAt and
refreshToken. -/
theorem C2_amended_refresh_writes (s : TokenStore) (ti : TokenInfo)
    (resp : TokenResponse) (now : Int)
    (s2 : TokenStore) (ti2 : TokenInfo) (ru : RefreshUpstream) (now2 : Int)
    (t : String)
    (hfind : findTok s "user1" = some ti)
    (hrt : ti.refreshToken ≠ "")
    (hwin : ¬ now > ti.refreshExpiresAt)
    (ha : resp.accessToken ≠ "") (hr : resp.refreshToken ≠ "")
    (htt : resp.tokenType ≠ "") (he : resp.expiresIn ≠ 0)
    (hn : now ≠ 0) (hne : now + resp.expiresIn ≠ 0)
    (hfind2 : findTok s2 "user1" = some ti2)
    (hstale2 : now2 > ti2.expiresAt)
    (hup2 : GetAccessToken ru = Except.ok t) :
    findTok (refreshTokenHandler (TokenUpstream.ok resp) now s).store "user1" =
      some ⟨"user1", resp.accessToken, resp.refreshToken, resp.tokenType,
        resp.expiresIn, now, now + resp.expiresIn, now, now + resp.expiresIn⟩ ∧
    findTok (getProductsTokenStep ru now2 s2).store "user1" =
      some { ti2 with
        accessToken := t
        issuedAt := now2
        expiresAt := now2 + ti2.expiresIn
        refreshIssuedAt := now2 } := by
  constructor
  · have hm := gormMergeInfo_eq ti
      ⟨"user1", resp.accessToken, resp.refreshToken, resp.tokenType,
        resp.expiresIn, now, now + resp.expiresIn, now, now + resp.expiresIn⟩
      (by simp) ha hr htt he hn hne hn hne
    simp [refreshTokenHandler, hfind, hrt, hwin, hm, findTok_setTok_self]
  · simp [getProductsTokenStep, hfind2, hstale2, hup2, findTok_setTok_self]

/-- C2 witness: concrete runs of both refresh paths, the full overwrite with
a reset refresh window in /GetAccessToken and the partial update preserving
the old refresh window in /get-products. -/
theorem C2_amended_witness :
    findTok (refreshTokenHandler (TokenUpstream.ok ⟨"na", "nr", 60, "Bearer"⟩) 40
        [("user1", ⟨"user1", "acc", "ref", "Bearer", 30, 0, 10, 0, 100⟩)]).store "user1" =
      some ⟨"user1", "na", "nr", "Bearer", 60, 40, 100, 40, 100⟩ ∧
    findTok (getProductsTokenStep (RefreshUpstream.ok "tk") 50
        [("user1", ⟨"user1", "a2", "r2", "Bearer", 60, 0, 10, 0, 99⟩)]).store "user1" =
      some { (⟨"user1", "a2", "r2", "Bearer", 60, 0, 10, 0, 99⟩ : TokenInfo) with
        accessToken := "tk"
        issuedAt := 50
        expiresAt := 50 + (⟨"user1", "a2", "r2", "Bearer", 60, 0, 10, 0, 99⟩ : TokenInfo).expiresIn
        refreshIssuedAt := 50 } :=
  C2_amended_refresh_writes
    [("user1", ⟨"user1", "acc", "ref", "Bearer", 30, 0, 10, 0, 100⟩)]
    ⟨"user1", "acc", "ref", "Bearer", 30, 0, 10, 0, 100⟩
    ⟨"na", "nr", 60, "Bearer"⟩ 40
    [("user1", ⟨"user1", "a2", "r2", "Bearer", 60, 0, 10, 0, 99⟩)]
    ⟨"user1", "a2", "r2", "Bearer", 60, 0, 10, 0, 99⟩
    (RefreshUpstream.ok "tk") 50 "tk"
    (by decide) (by decide) (by decide) (by decide) (by decide) (by decide)
    (by decide) (by decide) (by decide) (by decide) (by decide) (by decide)

/-- Data-model invariants of a stored token row as the spec states them:
expiresAt past issuedAt, refreshExpiresAt at least issuedAt, and non-empty
access and refresh tokens; False when no row exists. -/
def tokenInvariantHolds : Option TokenInfo → Prop
  | none => False
  | some rec => rec.expiresAt > rec.issuedAt ∧ rec.refreshExpiresAt ≥ rec.issuedAt ∧
      rec.accessToken ≠ "" ∧ rec.refreshToken ≠ ""

instance : (o : Option TokenInfo) → Decidable (tokenInvariantHolds o)
  | none => isFalse fun h => h
  | some rec => by unfold tokenInvariantHolds; infer_instance

/-- C9 counterexample: the callback exchange stores the upstream response
without validating it, so a response with empty tokens and expires_in = 0
writes a record with an empty accessToken and expiresAt equal to issuedAt,
violating the claimed invariants. -/
theorem C9_counterexample :
    findTok (callbackHandler "c" "xyz123" (TokenUpstream.ok ⟨"", "", 0, ""⟩) 5 []).store "user1" =
      some ⟨"user1", "", "", "", 0, 5, 5, 5, 5⟩ ∧
    ¬ tokenInvariantHolds (some ⟨"user1", "", "", "", 0, 5, 5, 5, 5⟩) := by
  decide

/-- C9 amended: every record written by the authorization-code exchange or by
the POST /GetAccessToken refresh satisfies expiresAt > issuedAt,
refreshExpiresAt at least issuedAt, and non-empty access and refresh tokens,
provided the upstream token response itself carries non-empty tokens and a
positive expires_in and the clock is positive; the code stores the response
without enforcing any of this itself. -/
theorem C9_amended_invariants (code : String) (resp : TokenResponse)
    (now : Int) (s : TokenStore)
    (s2 : TokenStore) (ti2 : TokenInfo) (resp2 : TokenResponse) (now2 : Int)
    (hc : code ≠ "")
    (ha : resp.accessToken ≠ "") (hr : resp.refreshToken ≠ "")
    (he : 0 < resp.expiresIn) (hn : 0 < now)
    (hfind2 : findTok s2 "user1" = some ti2) (hrt2 : ti2.refreshToken ≠ "")
    (hwin2 : ¬ now2 > ti2.refreshExpiresAt)
    (ha2 : resp2.accessToken ≠ "") (hr2 : resp2.refreshToken ≠ "")
    (he2 : 0 < resp2.expiresIn) (hn2 : 0 < now2) :
    tokenInvariantHolds
      (findTok (callbackHandler code "xyz123" (TokenUpstream.ok resp) now s).store "user1") ∧
    tokenInvariantHolds
      (findTok (refreshTokenHandler (TokenUpstream.ok resp2) now2 s2).store "user1") := by
  have hn0 : now ≠ 0 := by omega
  have hne0 : now + resp.expiresIn ≠ 0 := by omega
  have hn20 : now2 ≠ 0 := by omega
  have hne20 : now2 + resp2.expiresIn ≠ 0 := by omega
  constructor
  · cases hfind : findTok s "user1" with
    | none =>
      simp only [callbackHandler, hfind]
      rw [if_neg (by simp), if_neg (by simpa using hc)]
      simp only [findTok_setTok_self, tokenInvariantHolds]
      refine ⟨by omega, by omega, ha, hr⟩
    | some old =>
      have hm : gormMergeInfo old
          ⟨"user1", resp.accessToken, resp.refreshToken, resp.tokenType,
            resp.expiresIn, now, now + resp.expiresIn, now, now + resp.expiresIn⟩ =
          ⟨"user1", resp.accessToken, resp.refreshToken,
            (if resp.tokenType = "" then old.tokenType else resp.tokenType),
            resp.expiresIn, now, now + resp.expiresIn, now, now + resp.expiresIn⟩ := by
        simp [gormMergeInfo, ha, hr, he.ne', hn0, hne0]
      simp only [callbackHandler, hfind]
      rw [if_neg (by simp), if_neg (by simpa using hc)]
      simp only [hm, findTok_setTok_self, tokenInvariantHolds]
      refine ⟨by omega, by omega, ha, hr⟩
  · have hm : gormMergeInfo ti2
        ⟨"user1", resp2.accessToken, resp2.refreshToken, resp2.tokenType,
          resp2.expiresIn, now2, now2 + resp2.expiresIn, now2, now2 + resp2.expiresIn⟩ =
        ⟨"user1", resp2.accessToken, resp2.refreshToken,
          (if resp2.tokenType = "" then ti2.tokenType else resp2.tokenType),
          resp2.expiresIn, now2, now2 + resp2.expiresIn, now2, now2 + resp2.expiresIn⟩ := by
      simp [gormMergeInfo, ha2, hr2, he2.ne', hn20, hne20]
    simp only [refreshTokenHandler, hfind2]
    rw [if_neg hrt2, if_neg hwin2]
    simp only [findTok_setTok_self, hm, tokenInvariantHolds]
    refine ⟨by omega, by omega, ha2, hr2⟩

/-- C9 witness: concrete well-formed responses written through both paths
yield records satisfying the invariants. -/
theorem C9_amended_witness :
    tokenInvariantHolds
      (findTok (callbackHandler "c" "xyz123" (TokenUpstream.ok ⟨"na", "nr", 60, "Bearer"⟩) 5
        [("user1", ⟨"user1", "acc", "ref", "Bearer", 30, 0, 10, 0, 100⟩)]).store "user1") ∧
    tokenInvariantHolds
      (findTok (refreshTokenHandler (TokenUpstream.ok ⟨"nb", "ns", 45, "Bearer"⟩) 50
        [("user1", ⟨"user1", "ac2", "re2", "Bearer", 30, 0, 10, 0, 100⟩)]).store "user1") :=
  C9_amended_invariants "c" ⟨"na", "nr", 60, "Bearer"⟩ 5
    [("user1", ⟨"user1", "acc", "ref", "Bearer", 30, 0, 10, 0, 100⟩)]
    [("user1", ⟨"user1", "ac2", "re2", "Bearer", 30, 0, 10, 0, 100⟩)]
    ⟨"user1", "ac2", "re2", "Bearer", 30, 0, 10, 0, 100⟩
    ⟨"nb", "ns", 45, "Bearer"⟩ 50
    (by decide) (by decide) (by decide) (by decide) (by decide) (by decide)
    (by decide) (by decide) (by decide) (by decide) (by decide) (by decide)

end Converty
